import Mathlib

/-!
Verification of the ImagineVideo batch video-processing pipeline.

Filenames and tags are modelled as lists of characters (`List Char`); a
directory's contents is the list of entry names returned by a directory
scan.  Durations and frame rates are modelled as rationals; the source's
IEEE floats are exact on the small decimal literals the claims use.
-/

/-- Splits a list at the LAST occurrence of `tag`, returning the part before
the occurrence and the part after it (the tag itself removed).  Returns
`none` when `tag` does not occur.  This models the combination of Python's
substring test `tag in file` followed by `file.rsplit(tag, 1)`. -/
def lastSplitAux (tag : List Char) : List Char → Option (List Char × List Char)
  | [] => none
  | c :: cs =>
    match lastSplitAux tag cs with
    | some p => some (c :: p.1, p.2)
    | none =>
      if tag.isPrefixOf (c :: cs) then some ([], (c :: cs).drop tag.length)
      else none

/-- Python `os.path.splitext` on a bare filename: split at the last dot
unless every character before that dot is itself a dot. -/
def splitExt (s : List Char) : List Char × List Char :=
  match lastSplitAux ['.'] s with
  | none => (s, [])
  | some p => if p.1.all (fun c => c = '.') then (s, []) else (p.1, '.' :: p.2)

/-- Python whitespace characters stripped by `int()` and `float()`. -/
def isPyWs (c : Char) : Bool :=
  c = ' ' || c = '\t' || c = '\n' || c = '\r' || c = '\x0b' || c = '\x0c'

/-- Strip leading and trailing Python whitespace. -/
def trimWs (s : List Char) : List Char :=
  ((s.dropWhile isPyWs).reverse.dropWhile isPyWs).reverse

/-- Digit run accepted by Python `int()` after the first digit: digits with
single underscores allowed between digits (PEP 515).  `afterUs` records that
the previous character was an underscore and a digit must follow. -/
def pyDigitsAux (afterUs : Bool) (acc : Nat) : List Char → Option Nat
  | [] => if afterUs then none else some acc
  | c :: cs =>
    if c.isDigit then pyDigitsAux false (acc * 10 + (c.toNat - 48)) cs
    else if c = '_' then
      (if afterUs then none else pyDigitsAux true acc cs)
    else none

/-- Nonempty digit string (possibly with underscore grouping) to `Nat`. -/
def pyNatParse : List Char → Option Nat
  | [] => none
  | c :: cs => if c.isDigit then pyDigitsAux false (c.toNat - 48) cs else none

/-- Python `int(s)`: strip whitespace, optional sign, digits. -/
def pyIntParse (s : List Char) : Option Int :=
  match trimWs s with
  | '-' :: r => (pyNatParse r).map (fun n => -(n : Int))
  | '+' :: r => (pyNatParse r).map (fun n => (n : Int))
  | t => (pyNatParse t).map (fun n => (n : Int))

/-- The numeric suffix one filename contributes inside `get_max_counter`:
the file must contain `tag`; it is split at the last occurrence of `tag`,
the remainder has its extension stripped, and the result is parsed with
Python `int()`.  `none` models both branches the source ignores (the
filename does not contain `tag`, or `int()` raises `ValueError`). -/
def parseCounter (tag file : List Char) : Option Int :=
  match lastSplitAux tag file with
  | none => none
  | some p => pyIntParse (splitExt p.2).1

/-- Loop body of `get_max_counter`: keep the running maximum, replacing it
when a filename parses to a strictly larger number. -/
def counterStep (tag : List Char) (m : Int) (file : List Char) : Int :=
  match parseCounter tag file with
  | some n => if n > m then n else m
  | none => m

/-- Embedding of `VideoEditorUI.get_max_counter` (ImagineVideo.py lines
213-227): running maximum over the directory entries, starting from 0. -/
def get_max_counter (entries : List (List Char)) (tag : List Char) : Int :=
  entries.foldl (counterStep tag) 0

/-- Counter allocation as performed by every caller under the shared lock:
`get_max_counter(output_dir, tag) + 1`.  The allocation itself does not
modify the directory (the caller creates the placeholder separately). -/
def allocate_counter (entries : List (List Char)) (tag : List Char) :
    Int × List (List Char) :=
  (get_max_counter entries tag + 1, entries)

/-- Modelled from the spec's words (OutputNamer contract, claim C2): the
next counter is one plus the maximum of the parsed numeric suffixes, or 1
when no entry yields a parsed integer. -/
def specNextCounter (entries : List (List Char)) (tag : List Char) : Int :=
  match entries.filterMap (fun f => parseCounter tag f) with
  | [] => 1
  | v :: vs => vs.foldl max v + 1

lemma counterStep_eq_max (tag : List Char) (m : Int) (file : List Char) :
    counterStep tag m file =
      match parseCounter tag file with
      | some n => max m n
      | none => m := by
  unfold counterStep
  cases parseCounter tag file with
  | none => rfl
  | some n =>
    simp only
    rcases le_or_lt n m with h | h
    · rw [if_neg (not_lt.mpr h), max_eq_left h]
    · rw [if_pos h, max_eq_right h.le]

lemma le_foldl_max_init (l : List Int) : ∀ a : Int, a ≤ l.foldl max a := by
  induction l with
  | nil => intro a; exact le_refl a
  | cons x xs ih =>
    intro a
    exact le_trans (le_max_left a x) (ih (max a x))

lemma le_foldl_max_of_mem {l : List Int} {x : Int} (h : x ∈ l) :
    ∀ a : Int, x ≤ l.foldl max a := by
  induction l with
  | nil => cases h
  | cons y ys ih =>
    intro a
    rcases List.mem_cons.mp h with rfl | hmem
    · exact le_trans (le_max_right a x) (le_foldl_max_init ys (max a x))
    · exact ih hmem (max a y)

lemma get_max_counter_eq_foldl (entries : List (List Char)) (tag : List Char) :
    get_max_counter entries tag =
      (entries.filterMap (fun f => parseCounter tag f)).foldl max 0 := by
  unfold get_max_counter
  generalize (0 : Int) = a
  induction entries generalizing a with
  | nil => rfl
  | cons f fs ih =>
    rw [List.foldl_cons, List.filterMap_cons, counterStep_eq_max]
    cases h : parseCounter tag f with
    | none => simpa using ih a
    | some n => simpa using ih (max a n)

lemma get_max_counter_nonneg (entries : List (List Char)) (tag : List Char) :
    0 ≤ get_max_counter entries tag := by
  rw [get_max_counter_eq_foldl]
  exact le_foldl_max_init _ 0

lemma parse_le_get_max_counter {entries : List (List Char)} {tag file : List Char}
    {n : Int} (hmem : file ∈ entries) (hp : parseCounter tag file = some n) :
    n ≤ get_max_counter entries tag := by
  rw [get_max_counter_eq_foldl]
  exact le_foldl_max_of_mem (List.mem_filterMap.mpr ⟨file, hmem, hp⟩) 0

/-- C1: once an allocation computed `c = get_max_counter(output_dir, tag) + 1`
and a placeholder file whose remainder after the last occurrence of `tag`
parses to `c` exists in the directory, every later allocation for the same
tag returns a counter strictly greater than `c`; counters start at 1. -/
theorem counter_reservation_no_reuse
    (entries entriesLater : List (List Char)) (tag : List Char)
    (c : Int) (file : List Char)
    (htag : tag ≠ [])
    (hc : c = get_max_counter entries tag + 1)
    (hparse : parseCounter tag file = some c)
    (hmem : file ∈ entriesLater) :
    1 ≤ c ∧ c < get_max_counter entriesLater tag + 1 := by
  constructor
  · have h0 := get_max_counter_nonneg entries tag
    omega
  · have hle := parse_le_get_max_counter hmem hparse
    omega

/-- Witness for C1 at directory `[]`, tag `_last_`: the first allocation
reserves counter 1, the placeholder `clip_last_1.jpg` parses back to 1 and
forces the next allocation above 1. -/
theorem counter_reservation_no_reuse_witness :
    1 ≤ (1 : Int) ∧
      (1 : Int) < get_max_counter [("clip_last_1.jpg").data] (("_last_").data) + 1 :=
  counter_reservation_no_reuse [] [("clip_last_1.jpg").data] (("_last_").data) 1
    (("clip_last_1.jpg").data) (by decide) (by decide) (by decide) (by decide)

/-- C2 counterexample: with the single entry `clip_last_-3.jpg` the suffix
parses to `-3`, so the claimed formula `max(parsed) + 1` yields `-2`, but the
code's allocation (running maximum initialised to 0) yields 1. -/
theorem next_counter_negative_suffix_cex :
    get_max_counter [("clip_last_-3.jpg").data] (("_last_").data) + 1 = 1 ∧
    specNextCounter [("clip_last_-3.jpg").data] (("_last_").data) = -2 ∧
    get_max_counter [("clip_last_-3.jpg").data] (("_last_").data) + 1 ≠
      specNextCounter [("clip_last_-3.jpg").data] (("_last_").data) := by
  refine ⟨by decide, by decide, by decide⟩

/-- C2 amended: the allocated counter equals one plus the maximum of 0 and
all parsed suffix integers (the running maximum starts at 0, so negative
parsed suffixes cannot lower it); with no parsed value the counter is 1. -/
theorem next_counter_clamped_max (entries : List (List Char)) (tag : List Char)
    (htag : tag ≠ []) :
    get_max_counter entries tag + 1 =
      (entries.filterMap (fun f => parseCounter tag f)).foldl max 0 + 1 ∧
    (entries.filterMap (fun f => parseCounter tag f) = [] →
      get_max_counter entries tag + 1 = 1) := by
  constructor
  · rw [get_max_counter_eq_foldl]
  · intro hnone
    rw [get_max_counter_eq_foldl, hnone]
    rfl

/-- Witness for the amended C2 on a directory with entries `a_last_2.jpg`
and `b_last_-7.jpg` under tag `_last_`. -/
theorem next_counter_clamped_max_witness :
    get_max_counter [("a_last_2.jpg").data, ("b_last_-7.jpg").data] (("_last_").data) + 1 =
      ([("a_last_2.jpg").data, ("b_last_-7.jpg").data].filterMap
        (fun f => parseCounter (("_last_").data) f)).foldl max 0 + 1 ∧
    ([("a_last_2.jpg").data, ("b_last_-7.jpg").data].filterMap
        (fun f => parseCounter (("_last_").data) f) = [] →
      get_max_counter [("a_last_2.jpg").data, ("b_last_-7.jpg").data] (("_last_").data) + 1 = 1) :=
  next_counter_clamped_max [("a_last_2.jpg").data, ("b_last_-7.jpg").data]
    (("_last_").data) (by decide)

/-- C8: allocation is idempotent — two `next_counter` computations with no
file created in between (allocation alone leaves the directory unchanged)
return the same value. -/
theorem next_counter_idempotent (entries : List (List Char)) (tag : List Char)
    (htag : tag ≠ []) :
    (allocate_counter entries tag).1 =
      (allocate_counter (allocate_counter entries tag).2 tag).1 := rfl

/-- Witness for C8 at a concrete directory and tag. -/
theorem next_counter_idempotent_witness :
    (allocate_counter [("a_last_2.jpg").data] (("_last_").data)).1 =
      (allocate_counter
        (allocate_counter [("a_last_2.jpg").data] (("_last_").data)).2
        (("_last_").data)).1 :=
  next_counter_idempotent [("a_last_2.jpg").data] (("_last_").data) (by decide)

/-- C9: `get_max_counter` never returns a negative value (its running
maximum starts at 0), hence every allocated counter is at least 1, even
though a negative remainder such as the one in `clip_last_-3.jpg` is
accepted by the integer parse rather than ignored as non-numeric. -/
theorem max_counter_nonneg_despite_negative_parse
    (entries : List (List Char)) (tag : List Char) (htag : tag ≠ []) :
    0 ≤ get_max_counter entries tag ∧
    1 ≤ get_max_counter entries tag + 1 ∧
    parseCounter (("_last_").data) (("clip_last_-3.jpg").data) = some (-3) := by
  have h0 := get_max_counter_nonneg entries tag
  exact ⟨h0, by omega, by decide⟩

/-- Witness for C9 on the directory containing only `clip_last_-3.jpg`. -/
theorem max_counter_nonneg_despite_negative_parse_witness :
    0 ≤ get_max_counter [("clip_last_-3.jpg").data] (("_last_").data) ∧
    1 ≤ get_max_counter [("clip_last_-3.jpg").data] (("_last_").data) + 1 ∧
    parseCounter (("_last_").data) (("clip_last_-3.jpg").data) = some (-3) :=
  max_counter_nonneg_despite_negative_parse [("clip_last_-3.jpg").data]
    (("_last_").data) (by decide)

/-- Embedding of `VideoEditorUI.wait_for_file_ready` (ImagineVideo.py lines
229-245).  The list holds the outcome of each `os.path.getsize` poll that
fits inside the `max_wait` window: `some n` is a size reading, `none` an
`OSError`.  `last` is Python's `last_size`, initially `-1`; an `OSError`
leaves it unchanged.  The 0.5s confirmation sleep before returning `True`
and the real-time bound itself are outside the model. -/
def wait_for_file_ready (last : Int) : List (Option Nat) → Bool
  | [] => false
  | none :: rest => wait_for_file_ready last rest
  | some sz :: rest =>
    if (sz : Int) = last ∧ 0 < sz then true
    else wait_for_file_ready (sz : Int) rest

/-- Modelled from the spec's words (StabilityGate, claim C7): Ready exactly
when some poll observes a size that is nonzero and equal to the previously
observed size, where an unreadable poll is treated as still-changing and
does not update the previously observed size; otherwise NotReady.  `prev`
is the previously observed size, initially absent. -/
def specStableSignal (prev : Option Nat) : List (Option Nat) → Bool
  | [] => false
  | none :: rest => specStableSignal prev rest
  | some sz :: rest =>
    (decide (0 < sz) && decide (prev = some sz)) || specStableSignal (some sz) rest

/-- The `last_size` integer that encodes a previously observed size:
`-1` before any successful poll, the size itself afterwards. -/
def lastSizeOf : Option Nat → Int
  | none => -1
  | some sz => (sz : Int)

lemma wait_for_file_ready_eq_spec (polls : List (Option Nat)) :
    ∀ prev : Option Nat,
      wait_for_file_ready (lastSizeOf prev) polls = specStableSignal prev polls := by
  induction polls with
  | nil => intro prev; rfl
  | cons p rest ih =>
    intro prev
    cases p with
    | none =>
      simp only [wait_for_file_ready, specStableSignal]
      exact ih prev
    | some sz =>
      simp only [wait_for_file_ready, specStableSignal]
      by_cases h : (sz : Int) = lastSizeOf prev ∧ 0 < sz
      · rw [if_pos h]
        have hb : (decide (0 < sz) && decide (prev = some sz)) = true := by
          cases prev with
          | none =>
            exfalso
            have h1 := h.1
            simp only [lastSizeOf] at h1
            omega
          | some m =>
            obtain ⟨h1, h2⟩ := h
            simp only [lastSizeOf, Nat.cast_inj] at h1
            subst h1
            simp [h2]
        rw [hb]
        simp
      · rw [if_neg h]
        have hb : (decide (0 < sz) && decide (prev = some sz)) = false := by
          cases prev with
          | none => simp
          | some m =>
            rcases Decidable.em (0 < sz) with hp | hp
            · have hne : m ≠ sz := by
                intro he
                exact h ⟨by simp [lastSizeOf, he], hp⟩
              simp [hne, Ne.symm hne]
            · simp [hp]
        rw [hb]
        simpa using ih (some sz)

/-- C7: the stability gate returns Ready exactly when some poll within the
window observes a size that is nonzero and equal to the previously observed
size (polls that raise an OS error keep the previous observation and
polling continues); with no such observation it returns NotReady. -/
theorem stability_gate_ready_iff (polls : List (Option Nat)) :
    wait_for_file_ready (-1) polls = specStableSignal none polls :=
  wait_for_file_ready_eq_spec polls none

/-- Python `str.split(sep)` for a one-character separator: splits on every
occurrence; an empty input yields one empty field. -/
def splitOnChar (sep : Char) : List Char → List (List Char)
  | [] => [[]]
  | c :: cs =>
    let r := splitOnChar sep cs
    if c = sep then [] :: r
    else
      match r with
      | [] => [[c]]
      | y :: ys => (c :: y) :: ys

/-- Reads a run of decimal digits, returning the value and how many digits
were consumed; fails on any non-digit character. -/
def readDigitsAux (val cnt : Nat) : List Char → Option (Nat × Nat)
  | [] => some (val, cnt)
  | c :: cs =>
    if c.isDigit then readDigitsAux (val * 10 + (c.toNat - 48)) (cnt + 1) cs
    else none

/-- Python `float(s)` restricted to plain decimal notation: optional
whitespace and sign, digits with an optional decimal point, at least one
digit overall.  Exponents, `inf`/`nan` and underscore grouping are outside
the model; the probe claims only involve plain decimals. -/
def pyFloatParse (s : List Char) : Option ℚ :=
  let t := trimWs s
  let signed : Bool × List Char :=
    match t with
    | '-' :: r => (true, r)
    | '+' :: r => (false, r)
    | _ => (false, t)
  let v : Option ℚ :=
    match splitOnChar '.' signed.2 with
    | [a] =>
      match readDigitsAux 0 0 a with
      | some p => if p.2 = 0 then none else some ((p.1 : ℚ))
      | none => none
    | [a, b] =>
      match readDigitsAux 0 0 a, readDigitsAux 0 0 b with
      | some pa, some pb =>
        if pa.2 + pb.2 = 0 then none
        else some ((pa.1 : ℚ) + (pb.1 : ℚ) / ((10 : ℚ) ^ pb.2))
      | _, _ => none
    | _ => none
  match v with
  | some x => some (if signed.1 then -x else x)
  | none => none

/-- One entry of the probe's parsed `streams` array: its `codec_type` and
its `r_frame_rate` field when present. -/
structure StreamInfo where
  codec_type : String
  r_frame_rate : Option String
deriving DecidableEq

/-- The parsed JSON of a successful probe invocation, restricted to the
fields `get_video_info` reads: `format.duration` (as the raw string handed
to `float()`) and the `streams` array. -/
structure ProbeData where
  durationStr : String
  streams : List StreamInfo
deriving DecidableEq

/-- Embedding of `VideoEditorUI.get_video_info` (ImagineVideo.py lines
471-502) after a successful tool run and JSON parse: reads the duration,
finds the first video stream, and parses `r_frame_rate` as `num/den`.
`none` models every path that ends in the handler returning `(None, None)`
(a `ValueError` from `float()` or a `ZeroDivisionError` from the
division). -/
def get_video_info (d : ProbeData) : Option (ℚ × ℚ) :=
  match pyFloatParse d.durationStr.data with
  | none => none
  | some dur =>
    match d.streams.find? (fun st => st.codec_type == "video") with
    | some s =>
      match s.r_frame_rate with
      | some r =>
        match splitOnChar '/' r.data with
        | [numS, denS] =>
          if denS = ['0'] then some (dur, 30)
          else
            match pyFloatParse numS, pyFloatParse denS with
            | some n, some dv => if dv = 0 then none else some (dur, n / dv)
            | _, _ => none
        | _ => some (dur, 30)
      | none => some (dur, 30)
    | none => some (dur, 30)

/-- C5 counterexample: the probe JSON with duration `10` and a video stream
whose rational string is `30/00` has a zero denominator, yet the code does
not fall back to 30.0 fps: the denominator check compares against the
literal string `0`, so `30/00` reaches the division, raises
`ZeroDivisionError`, and the probe returns NotAvailable. -/
theorem probe_fps_zero_denominator_cex :
    pyFloatParse (("00").data) = some 0 ∧
    get_video_info ⟨"10", [⟨"video", some ("30/00")⟩]⟩ = none ∧
    get_video_info ⟨"10", [⟨"video", some ("30/00")⟩]⟩ ≠ some (10, 30) := by
  refine ⟨by decide, by decide, by decide⟩

/-- C5 amended: with a successful probe whose duration parses and whose
streams contain a video stream, a missing `r_frame_rate` field or a
denominator that is the literal string `0` falls back to 30.0 fps; a
denominator that parses to zero but is not the literal `0` makes the probe
return NotAvailable; a nonzero denominator gives `num / den`. -/
theorem probe_fps_fallback_amended (d : ProbeData) (dur : ℚ) (s : StreamInfo)
    (hdur : pyFloatParse d.durationStr.data = some dur)
    (hfind : d.streams.find? (fun st => st.codec_type == "video") = some s) :
    (s.r_frame_rate = none → get_video_info d = some (dur, 30)) ∧
    (∀ (r : String) (numS denS : List Char),
      s.r_frame_rate = some r → splitOnChar '/' r.data = [numS, denS] →
      denS = ['0'] → get_video_info d = some (dur, 30)) ∧
    (∀ (r : String) (numS denS : List Char) (n dv : ℚ),
      s.r_frame_rate = some r → splitOnChar '/' r.data = [numS, denS] →
      denS ≠ ['0'] → pyFloatParse numS = some n → pyFloatParse denS = some dv →
      dv = 0 → get_video_info d = none) ∧
    (∀ (r : String) (numS denS : List Char) (n dv : ℚ),
      s.r_frame_rate = some r → splitOnChar '/' r.data = [numS, denS] →
      denS ≠ ['0'] → pyFloatParse numS = some n → pyFloatParse denS = some dv →
      dv ≠ 0 → get_video_info d = some (dur, n / dv)) := by
  refine ⟨?_, ?_, ?_, ?_⟩
  · intro hnone
    simp [get_video_info, hdur, hfind, hnone]
  · intro r numS denS hr hsplit hden
    simp [get_video_info, hdur, hfind, hr, hsplit, hden]
  · intro r numS denS n dv hr hsplit hden hn hdv hdv0
    simp [get_video_info, hdur, hfind, hr, hsplit, hden, hn, hdv, hdv0]
  · intro r numS denS n dv hr hsplit hden hn hdv hdv0
    simp [get_video_info, hdur, hfind, hr, hsplit, hden, hn, hdv, hdv0]

/-- Witness for the amended C5 at the probe JSON with duration `10` and a
single video stream with rational string `25/1`. -/
theorem probe_fps_fallback_amended_witness :
    (StreamInfo.r_frame_rate ⟨"video", some ("25/1")⟩ = none →
      get_video_info ⟨"10", [⟨"video", some ("25/1")⟩]⟩ = some (10, 30)) ∧
    (∀ (r : String) (numS denS : List Char),
      StreamInfo.r_frame_rate ⟨"video", some ("25/1")⟩ = some r →
      splitOnChar '/' r.data = [numS, denS] →
      denS = ['0'] → get_video_info ⟨"10", [⟨"video", some ("25/1")⟩]⟩ = some (10, 30)) ∧
    (∀ (r : String) (numS denS : List Char) (n dv : ℚ),
      StreamInfo.r_frame_rate ⟨"video", some ("25/1")⟩ = some r →
      splitOnChar '/' r.data = [numS, denS] →
      denS ≠ ['0'] → pyFloatParse numS = some n → pyFloatParse denS = some dv →
      dv = 0 → get_video_info ⟨"10", [⟨"video", some ("25/1")⟩]⟩ = none) ∧
    (∀ (r : String) (numS denS : List Char) (n dv : ℚ),
      StreamInfo.r_frame_rate ⟨"video", some ("25/1")⟩ = some r →
      splitOnChar '/' r.data = [numS, denS] →
      denS ≠ ['0'] → pyFloatParse numS = some n → pyFloatParse denS = some dv →
      dv ≠ 0 → get_video_info ⟨"10", [⟨"video", some ("25/1")⟩]⟩ = some (10, n / dv)) :=
  probe_fps_fallback_amended ⟨"10", [⟨"video", some ("25/1")⟩]⟩ 10
    ⟨"video", some ("25/1")⟩ (by decide) (by decide)

/-- Decimal digits of a natural number, most significant first. -/
def natToCharsAux (n : Nat) (acc : List Char) : List Char :=
  if h : n = 0 then acc
  else natToCharsAux (n / 10) (Char.ofNat (48 + n % 10) :: acc)
termination_by n
decreasing_by exact Nat.div_lt_self (Nat.pos_of_ne_zero h) (by omega)

/-- Decimal rendering of a natural number. -/
def natToChars (n : Nat) : List Char :=
  if n = 0 then ['0'] else natToCharsAux n []

/-- Decimal rendering of an integer, as Python's f-string does. -/
def intToChars (i : Int) : List Char :=
  if i < 0 then '-' :: natToChars i.natAbs else natToChars i.natAbs

/-- The tag of extracted-frame artifacts. -/
def tagLast : List Char := ("_last_").data

/-- The tag of trimmed-video artifacts. -/
def tagTrimmed : List Char := ("_trimmed_").data

/-- One video of a batch run, with the environment's answers to the calls
the worker makes for it: whether the file still exists, what the probe
returns (`none` is NotAvailable), and whether the external tool call
succeeds. -/
structure VideoItem where
  stem : List Char
  ext : List Char
  existsOnDisk : Bool
  probe : Option (ℚ × ℚ)
  toolOk : Bool
deriving DecidableEq

/-- Effects of processing one batch item: the output directory contents
afterwards, whether the external tool was invoked, which counter (if any)
was allocated, and whether the item counted as a success. -/
structure StepResult where
  entriesAfter : List (List Char)
  invokedTool : Bool
  allocated : Option Int
  succeeded : Bool
deriving DecidableEq

/-- Per-item body of `_extract_last_frames_thread` (ImagineVideo.py lines
420-455): skip when the file is gone, the probe failed, or
`duration <= 1/fps`; a zero fps makes `1 / fps` raise `ZeroDivisionError`,
which the per-item handler turns into a skip as well.  Otherwise allocate a
counter under the lock, create the placeholder `<stem>_last_<c>.jpg`, and
run the tool. -/
def processExtractItem (entries : List (List Char)) (it : VideoItem) : StepResult :=
  if it.existsOnDisk = false then ⟨entries, false, none, false⟩
  else
    match it.probe with
    | none => ⟨entries, false, none, false⟩
    | some df =>
      if df.2 = 0 then ⟨entries, false, none, false⟩
      else if df.1 ≤ 1 / df.2 then ⟨entries, false, none, false⟩
      else
        let c := get_max_counter entries tagLast + 1
        let name := it.stem ++ tagLast ++ intToChars c ++ (".jpg").data
        ⟨entries ++ [name], true, some c, it.toolOk⟩

/-- Per-item body of `_trim_last_frames_thread` (ImagineVideo.py lines
548-595): the same skip conditions, then allocation of
`<stem>_trimmed_<c><ext>` and the tool call. -/
def processTrimItem (entries : List (List Char)) (it : VideoItem) : StepResult :=
  if it.existsOnDisk = false then ⟨entries, false, none, false⟩
  else
    match it.probe with
    | none => ⟨entries, false, none, false⟩
    | some df =>
      if df.2 = 0 then ⟨entries, false, none, false⟩
      else if df.1 ≤ 1 / df.2 then ⟨entries, false, none, false⟩
      else
        let c := get_max_counter entries tagTrimmed + 1
        let name := it.stem ++ tagTrimmed ++ intToChars c ++ it.ext
        ⟨entries ++ [name], true, some c, it.toolOk⟩

/-- The extract worker's loop over the batch, threading the output
directory contents and the success count. -/
def extractLoop (entries : List (List Char)) (succ : Nat) :
    List VideoItem → Nat × List (List Char)
  | [] => (succ, entries)
  | it :: rest =>
    let st := processExtractItem entries it
    extractLoop st.entriesAfter (if st.succeeded then succ + 1 else succ) rest

/-- The trim worker's loop over the batch. -/
def trimLoop (entries : List (List Char)) (succ : Nat) :
    List VideoItem → Nat × List (List Char)
  | [] => (succ, entries)
  | it :: rest =>
    let st := processTrimItem entries it
    trimLoop st.entriesAfter (if st.succeeded then succ + 1 else succ) rest

/-- Observable outcome of one worker-thread run: the completion callback's
arguments when it was scheduled (`success_count`, `total_count`; the
`output_dir` argument is the directory whose contents `entriesAfter`
records), whether the error dialog was scheduled instead, the final value
of `is_processing`, and the final directory contents. -/
structure RunOutcome where
  completion : Option (Nat × Nat)
  errorShown : Bool
  isProcessingAfter : Bool
  entriesAfter : List (List Char)
deriving DecidableEq

/-- Embedding of `_extract_last_frames_thread` (ImagineVideo.py lines
404-463).  `ffmpegOk` is the `_check_ffmpeg` outcome (a failed check raises
into the outer handler), `mkdirsOk` whether `os.makedirs` succeeds.  The
outer `except` schedules the error dialog instead of the completion
callback; the `finally` clears `is_processing` on every path. -/
def runExtractThread (ffmpegOk mkdirsOk : Bool) (entries : List (List Char))
    (videos : List VideoItem) : RunOutcome :=
  if ffmpegOk = false then ⟨none, true, false, entries⟩
  else if mkdirsOk = false then ⟨none, true, false, entries⟩
  else
    let r := extractLoop entries 0 videos
    ⟨some (r.1, videos.length), false, false, r.2⟩

/-- Embedding of `_trim_last_frames_thread` (ImagineVideo.py lines
535-603); the ffmpeg check happens before this thread is spawned, so only
`os.makedirs` can raise into the outer handler. -/
def runTrimThread (mkdirsOk : Bool) (entries : List (List Char))
    (videos : List VideoItem) : RunOutcome :=
  if mkdirsOk = false then ⟨none, true, false, entries⟩
  else
    let r := trimLoop entries 0 videos
    ⟨some (r.1, videos.length), false, false, r.2⟩

/-- A batch item whose video file is missing from disk. -/
def missingVideo : VideoItem := ⟨("a").data, (".mp4").data, false, none, true⟩

/-- A batch item that exists on disk but whose probe returns NotAvailable. -/
def unprobedVideo : VideoItem := ⟨("a").data, (".mp4").data, true, none, true⟩

/-- C3 counterexample: running the extract worker over a non-empty batch
with the tool check failing takes the exceptional exit path; the
`is_processing` flag is cleared, but the completion callback is NOT invoked
— the error dialog is scheduled instead — contradicting the claim that the
completion callback runs on every exit path. -/
theorem batch_error_path_cex :
    (runExtractThread false true [] [unprobedVideo]).completion = none ∧
    (runExtractThread false true [] [unprobedVideo]).errorShown = true ∧
    (runExtractThread false true [] [unprobedVideo]).isProcessingAfter = false ∧
    [unprobedVideo] ≠ ([] : List VideoItem) := by
  refine ⟨by decide, by decide, by decide, by decide⟩

/-- C3 amended: on every exit path of the extract and trim workers the
`is_processing` flag is cleared; when the preamble (tool check, output
directory creation) succeeds, per-item failures are absorbed and the
completion callback is invoked with `(success_count, total_count)` for the
output directory; when the preamble raises, the error dialog is scheduled
instead of the completion callback, with the flag still cleared. -/
theorem batch_completion_and_flag (ffmpegOk mkdirsOk : Bool)
    (entries : List (List Char)) (videos : List VideoItem) :
    (runExtractThread ffmpegOk mkdirsOk entries videos).isProcessingAfter = false ∧
    (runTrimThread mkdirsOk entries videos).isProcessingAfter = false ∧
    (ffmpegOk = true → mkdirsOk = true →
      (runExtractThread ffmpegOk mkdirsOk entries videos).completion =
        some ((extractLoop entries 0 videos).1, videos.length) ∧
      (runExtractThread ffmpegOk mkdirsOk entries videos).errorShown = false) ∧
    (mkdirsOk = true →
      (runTrimThread mkdirsOk entries videos).completion =
        some ((trimLoop entries 0 videos).1, videos.length) ∧
      (runTrimThread mkdirsOk entries videos).errorShown = false) := by
  cases ffmpegOk <;> cases mkdirsOk <;>
    simp [runExtractThread, runTrimThread]

/-- Witness for the amended C3 on a healthy preamble and a one-item batch
whose video is missing. -/
theorem batch_completion_and_flag_witness :
    (runExtractThread true true [] [missingVideo]).isProcessingAfter = false ∧
    (runTrimThread true [] [missingVideo]).isProcessingAfter = false ∧
    (true = true → true = true →
      (runExtractThread true true [] [missingVideo]).completion =
        some ((extractLoop [] 0 [missingVideo]).1, [missingVideo].length) ∧
      (runExtractThread true true [] [missingVideo]).errorShown = false) ∧
    (true = true →
      (runTrimThread true [] [missingVideo]).completion =
        some ((trimLoop [] 0 [missingVideo]).1, [missingVideo].length) ∧
      (runTrimThread true [] [missingVideo]).errorShown = false) :=
  batch_completion_and_flag true true [] [missingVideo]

/-- C4: an item whose file is missing, whose probe returns NotAvailable, or
whose probed duration satisfies `duration <= 1/fps` is skipped by both the
extract and the trim worker: the external tool is not invoked, no counter
is allocated, the directory is unchanged, the item is not a success, and
the batch continues with the remaining items exactly as if the item were
absent. -/
theorem skip_no_tool_no_counter (entries : List (List Char)) (it : VideoItem)
    (rest : List VideoItem) (succ : Nat)
    (h : it.existsOnDisk = false ∨ it.probe = none ∨
      ∃ dur fps : ℚ, it.probe = some (dur, fps) ∧ fps ≠ 0 ∧ dur ≤ 1 / fps) :
    processExtractItem entries it = ⟨entries, false, none, false⟩ ∧
    processTrimItem entries it = ⟨entries, false, none, false⟩ ∧
    extractLoop entries succ (it :: rest) = extractLoop entries succ rest ∧
    trimLoop entries succ (it :: rest) = trimLoop entries succ rest := by
  have hext : processExtractItem entries it = ⟨entries, false, none, false⟩ := by
    rcases h with h1 | h2 | ⟨dur, fps, hp, hf, hle⟩
    · simp [processExtractItem, h1]
    · by_cases hb : it.existsOnDisk = false <;> simp [processExtractItem, hb, h2]
    · have hle' : dur ≤ fps⁻¹ := by rw [← one_div]; exact hle
      by_cases hb : it.existsOnDisk = false <;>
        simp [processExtractItem, hb, hp, hf, hle']
  have htrim : processTrimItem entries it = ⟨entries, false, none, false⟩ := by
    rcases h with h1 | h2 | ⟨dur, fps, hp, hf, hle⟩
    · simp [processTrimItem, h1]
    · by_cases hb : it.existsOnDisk = false <;> simp [processTrimItem, hb, h2]
    · have hle' : dur ≤ fps⁻¹ := by rw [← one_div]; exact hle
      by_cases hb : it.existsOnDisk = false <;>
        simp [processTrimItem, hb, hp, hf, hle']
  refine ⟨hext, htrim, ?_, ?_⟩
  · simp [extractLoop, hext]
  · simp [trimLoop, htrim]

/-- Witness for C4 on a one-item batch whose video file is missing. -/
theorem skip_no_tool_no_counter_witness :
    processExtractItem [] missingVideo = ⟨[], false, none, false⟩ ∧
    processTrimItem [] missingVideo = ⟨[], false, none, false⟩ ∧
    extractLoop [] 0 [missingVideo] = extractLoop [] 0 [] ∧
    trimLoop [] 0 [missingVideo] = trimLoop [] 0 [] :=
  skip_no_tool_no_counter [] missingVideo [] 0 (Or.inl (by decide))

/-- The front-end state the run entry points read and could write: the
global `is_processing` flag, the loaded video list, the listbox selection,
and the progress/status variables. -/
structure AppSt where
  is_processing : Bool
  videos : List String
  selection : List Nat
  progress : ℚ
  status : String
deriving DecidableEq

/-- Result of asking for a new run: rejected as busy, rejected for an empty
selection, rejected because the tool is missing, declined in the
confirmation dialog, or started with the given item snapshot. -/
inductive StartOutcome
  | busy
  | noVideos
  | noFfmpeg
  | declined
  | started (items : List String)
deriving DecidableEq

/-- Embedding of `VideoEditorUI.get_selected_videos` (ImagineVideo.py lines
380-386): the selected entries, or a copy of the whole list. -/
def get_selected_videos (s : AppSt) (selected : Bool) : List String :=
  if selected then s.selection.filterMap (fun i => s.videos.get? i)
  else s.videos

/-- Embedding of `VideoEditorUI.extract_last_frames` (ImagineVideo.py lines
388-402): reject while `is_processing` is set, otherwise snapshot the
videos and start the worker thread.  The returned state is the front-end
state when the entry point returns. -/
def extract_last_frames (s : AppSt) (selected : Bool) : StartOutcome × AppSt :=
  if s.is_processing then (.busy, s)
  else
    let vids := get_selected_videos s selected
    if vids = [] then (.noVideos, s)
    else (.started vids, s)

/-- Embedding of `VideoEditorUI.trim_last_frames` (ImagineVideo.py lines
504-524): the busy check comes first, then the empty-selection check, the
tool check, and the confirmation dialog. -/
def trim_last_frames (s : AppSt) (selected ffmpegOk confirmed : Bool) :
    StartOutcome × AppSt :=
  if s.is_processing then (.busy, s)
  else
    let vids := get_selected_videos s selected
    if vids = [] then (.noVideos, s)
    else if ffmpegOk = false then (.noFfmpeg, s)
    else if confirmed then (.started vids, s)
    else (.declined, s)

/-- C6: while `is_processing` is set, both entry points reject immediately
with Busy, the front-end state is returned unchanged (video list, flag,
progress and status untouched), and no worker is started. -/
theorem busy_rejection_atomic (s : AppSt) (selected ffmpegOk confirmed : Bool)
    (h : s.is_processing = true) :
    extract_last_frames s selected = (.busy, s) ∧
    trim_last_frames s selected ffmpegOk confirmed = (.busy, s) ∧
    (∀ items : List String, StartOutcome.busy ≠ .started items) := by
  refine ⟨?_, ?_, ?_⟩
  · simp [extract_last_frames, h]
  · simp [trim_last_frames, h]
  · intro items hcon
    cases hcon

/-- Witness for C6 at a concrete busy state. -/
theorem busy_rejection_atomic_witness :
    extract_last_frames ⟨true, [("v")], [], 0, ("Ready")⟩ false = (.busy, ⟨true, [("v")], [], 0, ("Ready")⟩) ∧
    trim_last_frames ⟨true, [("v")], [], 0, ("Ready")⟩ false true true = (.busy, ⟨true, [("v")], [], 0, ("Ready")⟩) ∧
    (∀ items : List String, StartOutcome.busy ≠ .started items) :=
  busy_rejection_atomic ⟨true, [("v")], [], 0, ("Ready")⟩ false true true rfl

/-- A heap of list objects: Python list identities are indices into the
heap, so rebinding a reference and mutating an object can be told apart. -/
structure RefHeap where
  cells : List (List String)
deriving DecidableEq

/-- Dereference a list object. -/
def RefHeap.lookup (h : RefHeap) (r : Nat) : List String :=
  h.cells.getD r []

/-- Allocate a fresh list object, returning its reference. -/
def RefHeap.alloc (h : RefHeap) (v : List String) : Nat × RefHeap :=
  (h.cells.length, ⟨h.cells ++ [v]⟩)

/-- The application state for the aliasing model: a heap of list objects
and the reference currently bound to `self.videos`. -/
structure AppRefs where
  heap : RefHeap
  videosRef : Nat
deriving DecidableEq

/-- Heap-level model of `get_selected_videos(selected=False)`
(ImagineVideo.py line 386): `self.videos.copy()` allocates a fresh list
object with the current contents and hands its reference to the worker. -/
def snapshotAllVideos (s : AppRefs) : Nat × AppRefs :=
  let cur := s.heap.lookup s.videosRef
  let a := s.heap.alloc cur
  (a.1, ⟨a.2, s.videosRef⟩)

/-- Heap-level model of `load_videos` (ImagineVideo.py lines 169-211): the
net effect of `self.videos = []` followed by the appends is that
`self.videos` is rebound to a freshly allocated list object holding the
files found by the rescan; no existing object is mutated. -/
def load_videos (s : AppRefs) (found : List String) : AppRefs :=
  let a := s.heap.alloc found
  ⟨a.2, a.1⟩

lemma getD_append_left {α : Type} (l₁ l₂ : List α) (n : Nat) (d : α)
    (h : n < l₁.length) : (l₁ ++ l₂).getD n d = l₁.getD n d := by
  induction l₁ generalizing n with
  | nil => cases h
  | cons x xs ih =>
    cases n with
    | zero => rfl
    | succ m =>
      simp only [List.cons_append, List.getD_cons_succ]
      exact ih m (by simpa using h)

lemma getD_append_self {α : Type} (l₁ : List α) (v : α) (l₂ : List α) (d : α) :
    (l₁ ++ v :: l₂).getD l₁.length d = v := by
  induction l₁ with
  | nil => rfl
  | cons x xs ih => simpa using ih

/-- C10: the item list of a run is a snapshot fixed at start.  The
reference returned by the copy differs from the one `self.videos` is bound
to afterwards, and a concurrent reload leaves the snapshot object — hence
the items the in-flight run processes and the total count it reports —
exactly the videos loaded when the run began. -/
theorem snapshot_immune_to_reload (s : AppRefs) (found : List String) :
    (load_videos (snapshotAllVideos s).2 found).heap.lookup (snapshotAllVideos s).1 =
      s.heap.lookup s.videosRef ∧
    (load_videos (snapshotAllVideos s).2 found).videosRef ≠ (snapshotAllVideos s).1 ∧
    ((load_videos (snapshotAllVideos s).2 found).heap.lookup
        (snapshotAllVideos s).1).length = (s.heap.lookup s.videosRef).length := by
  have hlook :
      (load_videos (snapshotAllVideos s).2 found).heap.lookup (snapshotAllVideos s).1 =
        s.heap.lookup s.videosRef := by
    simp only [load_videos, snapshotAllVideos, RefHeap.alloc, RefHeap.lookup]
    rw [List.append_assoc]
    exact getD_append_self s.heap.cells (s.heap.cells.getD s.videosRef []) _ []
  refine ⟨hlook, ?_, by rw [hlook]⟩
  simp only [load_videos, snapshotAllVideos, RefHeap.alloc]
  simp
